import Mathlib

/-!
Verification of the POS cart/checkout/hold-resume flow of the Epos-pharma
front-end. The definitions below are a shallow embedding of the handlers in
the application root component (`handleCheckout`, `handleHoldSale`,
`handleResumeSale`) and the POS page (`addToCart`, `updateQuantity`,
`subtotal`/`taxAmount`/`total`, `handleCheckout`, `handleHold`,
`handleResume`), plus the low-stock predicate of the Inventory and Dashboard
pages.

Modelling conventions:
- JavaScript numbers used for money and tax are modelled as `Rat`
  (the arithmetic involved is exact on the decimal inputs used);
- stock and cart quantities are `Nat` (the data-model invariant
  `stock >= 0`); `Math.max(0, q + delta)` becomes `Int.toNat`;
- dates are abstract `Int` timestamps ordered like `Date` values;
- `AppSetting.value` is stored as a string in the source and read through
  `Number(... || default)`; settings are modelled with numeric values, and
  an absent key falls back to the default, mirroring the source lookups;
- `alert`/`window.confirm` UI effects become returned error values and a
  boolean input for the confirmation answer;
- random id generation and `new Date()` become explicit parameters.
-/

namespace Epos

inductive Role
  | admin
  | pharmacist
  | cashier
deriving Repr, DecidableEq

structure User where
  id : String
  name : String
  email : String
  role : Role
  active : Bool
deriving Repr, DecidableEq

structure Product where
  id : Nat
  name : String
  genericName : String
  strength : String
  form : String
  category : String
  price : Rat
  costPrice : Rat
  stock : Nat
  expiryDate : Int
  barcode : String
  sku : String
  batchNumber : String
  supplier : String
  packSize : String
  reorderLevel : Nat
  location : String
  requiresPrescription : Bool
  isNarcotic : Bool
  warningNote : Option String
deriving Repr, DecidableEq

/-- `CartItem extends Product` as in `types.ts`: a full product snapshot
plus a quantity. -/
structure CartItem extends Product where
  quantity : Nat
deriving Repr, DecidableEq

inductive PaymentMethod
  | cash
  | easypaisa
  | jazzCash
deriving Repr, DecidableEq

structure SaleItem where
  productId : Nat
  productName : String
  quantity : Nat
  price : Rat
  costPrice : Rat
  batchNumber : String
  isNarcotic : Bool
deriving Repr, DecidableEq

structure Sale where
  id : String
  date : String
  totalAmount : Rat
  paymentMethod : PaymentMethod
  items : List SaleItem
  userId : String
  userName : String
deriving Repr, DecidableEq

structure HeldSale where
  id : String
  date : String
  items : List CartItem
  total : Rat
  userId : String
  userName : String
  referenceNote : Option String
deriving Repr, DecidableEq

structure AppSetting where
  id : Nat
  key : String
  value : Rat
  description : String
  group : String
deriving Repr, DecidableEq

/-- Numeric settings lookup `Number(settings.find(s => s.key === key)?.value || dflt)`. -/
def settingValue (settings : List AppSetting) (key : String) (dflt : Rat) : Rat :=
  ((settings.find? (fun s => s.key = key)).map (fun s => s.value)).getD dflt

/-- POS: `taxRate = Number(settings.find(s => s.key === 'tax_rate')?.value || 0)`. -/
def taxRate (settings : List AppSetting) : Rat :=
  settingValue settings "tax_rate" 0

/-- Inventory/Dashboard: low-stock default,
`Number(settings.find(s => s.key === 'low_stock_limit_default')?.value || 5)`. -/
def lowStockLimit (settings : List AppSetting) : Rat :=
  settingValue settings "low_stock_limit_default" 5

/-- The stock level the catalog records for product id `pid`
(`none` when no product with that id is in the catalog). -/
def catalogStock (products : List Product) (pid : Nat) : Option Nat :=
  (products.find? (fun p => p.id = pid)).map (fun p => p.stock)

/-- App `handleCheckout`, step 1: the `stockError` flag computed while
mapping over `products` — set iff some product's first matching cart line
asks for more than its stock. -/
def checkoutStockError (products : List Product) (cart : List CartItem) : Bool :=
  products.any (fun p =>
    match cart.find? (fun c => c.id = p.id) with
    | some c => p.stock < c.quantity
    | none => false)

/-- App `handleCheckout`, step 1: the body of the `products.map` building
`updatedProducts` — a product whose first matching cart line fits in stock
is decremented, any other product is kept. -/
def checkoutUpdateStep (cart : List CartItem) (p : Product) : Product :=
  match cart.find? (fun c => c.id = p.id) with
  | some c => if p.stock < c.quantity then p else { p with stock := p.stock - c.quantity }
  | none => p

/-- App `handleCheckout`, step 1: `updatedProducts`. -/
def checkoutUpdatedProducts (products : List Product) (cart : List CartItem) :
    List Product :=
  products.map (checkoutUpdateStep cart)

/-- App `handleCheckout`, step 2: flattening a cart line into a `SaleItem`
snapshot. -/
def saleItemOfCartItem (c : CartItem) : SaleItem :=
  { productId := c.id
    productName := c.name
    quantity := c.quantity
    price := c.price
    costPrice := c.costPrice
    batchNumber := c.batchNumber
    isNarcotic := c.isNarcotic }

/-- Outcome of the app-level checkout handler: the alert message (if the
operation aborted) together with the resulting catalog and ledger. The
source handler mutates `products`/`sales` via state setters only on the
success path and alerts and returns early on the error path. -/
structure CheckoutResult where
  error : Option String
  products : List Product
  sales : List Sale
deriving Repr, DecidableEq

/-- App `handleCheckout(cart, total, method)`: re-checks stock for every
catalog product with a matching cart line; aborts wholesale on any
shortfall, otherwise commits the decremented catalog and prepends one new
`Sale` built from the cart. `saleId` and `date` stand for
`Math.random().toString(36).substr(2, 9)` and `new Date().toISOString()`. -/
def handleCheckout (products : List Product) (sales : List Sale)
    (cart : List CartItem) (total : Rat) (method : PaymentMethod)
    (saleId : String) (date : String) (u : User) : CheckoutResult :=
  if checkoutStockError products cart then
    { error := some "Error: One or more items have insufficient stock."
      products := products
      sales := sales }
  else
    { error := none
      products := checkoutUpdatedProducts products cart
      sales :=
        { id := saleId
          date := date
          totalAmount := total
          paymentMethod := method
          items := cart.map saleItemOfCartItem
          userId := u.id
          userName := u.name } :: sales }

/-- POS session state: the catalog, ledger and held-sale registry owned by
the app root together with the POS page's active cart. -/
structure PosState where
  products : List Product
  sales : List Sale
  heldSales : List HeldSale
  cart : List CartItem
deriving Repr, DecidableEq

/-- POS `subtotal = cart.reduce((sum, item) => sum + item.price * item.quantity, 0)`. -/
def subtotal (cart : List CartItem) : Rat :=
  cart.foldl (fun sum item => sum + item.price * (item.quantity : Rat)) 0

/-- POS `taxAmount = (subtotal * taxRate) / 100`. -/
def taxAmount (cart : List CartItem) (rate : Rat) : Rat :=
  subtotal cart * rate / 100

/-- POS `total = subtotal + taxAmount`. -/
def cartTotal (cart : List CartItem) (rate : Rat) : Rat :=
  subtotal cart + taxAmount cart rate

/-- The quantity the cart currently carries for product id `pid` — the
`currentQty` read in `addToCart` (0 when no line exists). -/
def cartQty (cart : List CartItem) (pid : Nat) : Nat :=
  match cart.find? (fun item => item.id = pid) with
  | some item => item.quantity
  | none => 0

/-- POS `addToCart(product)`. `now` stands for `new Date()`;
`rxConfirmed` is the cashier's answer to the `window.confirm` prescription
prompt (irrelevant when `requiresPrescription` is false). The expiry check
is a hard block; the stock check rejects when one more unit would exceed
`product.stock`; otherwise the existing line is incremented or a new line
with quantity 1 is appended. The `warningNote` alert is non-blocking and
leaves the result unchanged. -/
def addToCart (cart : List CartItem) (product : Product) (now : Int)
    (rxConfirmed : Bool) : List CartItem :=
  if product.expiryDate < now then cart
  else if product.requiresPrescription && !rxConfirmed then cart
  else
    match cart.find? (fun item => item.id = product.id) with
    | some existingItem =>
        if product.stock < existingItem.quantity + 1 then cart
        else cart.map (fun item =>
          if item.id = product.id then { item with quantity := item.quantity + 1 }
          else item)
    | none =>
        if product.stock < 0 + 1 then cart
        else cart ++ [{ toProduct := product, quantity := 1 }]

/-- POS `updateQuantity(id, delta)`, the body of the `map`: the matching
line is left untouched when the product is still in the catalog and
`quantity + delta` would exceed its stock; otherwise its quantity becomes
`Math.max(0, quantity + delta)`. -/
def updateQuantityStep (products : List Product) (pid : Nat) (delta : Int)
    (item : CartItem) : CartItem :=
  if item.id = pid then
    match products.find? (fun p => p.id = pid) with
    | some product =>
        if (product.stock : Int) < (item.quantity : Int) + delta then item
        else { item with quantity := ((item.quantity : Int) + delta).toNat }
    | none => { item with quantity := ((item.quantity : Int) + delta).toNat }
  else item

/-- POS `updateQuantity(id, delta)`: maps the step over the cart, then
filters out lines whose quantity reached 0. -/
def updateQuantity (products : List Product) (cart : List CartItem)
    (pid : Nat) (delta : Int) : List CartItem :=
  (cart.map (updateQuantityStep products pid delta)).filter
    (fun item => 0 < item.quantity)

/-- POS `removeFromCart(id)`. -/
def removeFromCart (cart : List CartItem) (pid : Nat) : List CartItem :=
  cart.filter (fun item => item.id ≠ pid)

/-- POS `handleCheckout`: guarded on a non-empty cart, computes the total,
invokes the app-level checkout, then — unconditionally, whatever the
app-level handler did — clears the cart (and shows the success alert). -/
def posHandleCheckout (st : PosState) (settings : List AppSetting)
    (method : PaymentMethod) (saleId : String) (date : String) (u : User) :
    PosState :=
  if st.cart.isEmpty then st
  else
    let r := handleCheckout st.products st.sales st.cart
      (cartTotal st.cart (taxRate settings)) method saleId date u
    { st with products := r.products, sales := r.sales, cart := [] }

/-- App `handleHoldSale(cart, total, note)`: builds a `HeldSale` with a
generated id and timestamp, defaulting the reference note, and prepends it
to the registry. `newId`/`date`/`defaultNote` stand for the generated id,
`new Date().toISOString()` and the `Held at <time>` default text. -/
def handleHoldSale (heldSales : List HeldSale) (cart : List CartItem)
    (total : Rat) (note : Option String) (newId : String) (date : String)
    (defaultNote : String) (u : User) : List HeldSale :=
  { id := newId
    date := date
    items := cart
    total := total
    userId := u.id
    userName := u.name
    referenceNote := some (note.getD defaultNote) } :: heldSales

/-- POS `handleHold`: rejects an empty cart, otherwise holds the cart at
its current total (the POS page passes no note, so the default is used)
and clears the active cart. -/
def posHandleHold (st : PosState) (settings : List AppSetting)
    (newId : String) (date : String) (defaultNote : String) (u : User) :
    PosState :=
  if st.cart.isEmpty then st
  else
    { st with
      heldSales := handleHoldSale st.heldSales st.cart
        (cartTotal st.cart (taxRate settings)) none newId date defaultNote u
      cart := [] }

/-- Resume of a held sale by id: the POS page only offers entries of the
registry, so an id with no entry is a no-op (`NotFound`, surfaced without
a crash); on a hit, POS `handleResume` replaces the active cart with the
held snapshot and App `handleResumeSale` filters the id out of the
registry. -/
def posHandleResume (st : PosState) (hid : String) : Except String PosState :=
  match st.heldSales.find? (fun h => h.id = hid) with
  | none => Except.error "NotFound"
  | some h =>
      Except.ok
        { st with
          cart := h.items
          heldSales := st.heldSales.filter (fun g => g.id ≠ hid) }

/-- Inventory/Dashboard low-stock predicate
`p.stock <= (p.reorderLevel || dflt)`: a `reorderLevel` of 0 is falsy in
the source and falls back to the default threshold. -/
def isLowStock (dflt : Rat) (p : Product) : Bool :=
  (p.stock : Rat) ≤ (if p.reorderLevel = 0 then dflt else (p.reorderLevel : Rat))

/-- Dashboard `lowStockCount`. -/
def lowStockCount (settings : List AppSetting) (products : List Product) : Nat :=
  (products.filter (fun p => isLowStock (lowStockLimit settings) p)).length

/-! Concrete fixtures used to instantiate the theorems below, in the shape
of the mock catalog records. -/

/-- A concrete product record with the fields the POS logic reads
(`id`, `price`, `stock`, `expiryDate`, `reorderLevel`,
`requiresPrescription`) and fixed filler for the rest. -/
def mkProduct (pid : Nat) (price : Rat) (stock : Nat) (expiry : Int)
    (reorder : Nat) (rx : Bool) : Product :=
  { id := pid, name := "Panadol", genericName := "Paracetamol"
    strength := "500mg", form := "Tablet", category := "Analgesic"
    price := price, costPrice := 0, stock := stock, expiryDate := expiry
    barcode := "8964000000001", sku := "MED-001", batchNumber := "B123"
    supplier := "S", packSize := "Box of 10", reorderLevel := reorder
    location := "A1", requiresPrescription := rx, isNarcotic := false
    warningNote := none }

/-- A cart line for a product at a given quantity. -/
def mkItem (p : Product) (q : Nat) : CartItem :=
  { toProduct := p, quantity := q }

def demoUser : User :=
  { id := "u1", name := "Aisha", email := "aisha@epos.pk"
    role := Role.cashier, active := true }

/-- Settings registry with a 17% tax rate. -/
def demoSettings : List AppSetting :=
  [{ id := 1, key := "tax_rate", value := 17
     description := "Sales tax percent", group := "billing" }]

def wProduct1 : Product := mkProduct 1 100 5 1000 3 false
def wProduct2 : Product := mkProduct 2 50 1 1000 3 false
/-- An expired product that also requires a prescription. -/
def wExpiredRx : Product := mkProduct 3 20 4 (-5) 3 true
def wItem1 : CartItem := mkItem wProduct1 2
def wItem2 : CartItem := mkItem wProduct2 1
/-- A cart line asking for 2 units of a product with stock 1. -/
def wShortItem : CartItem := mkItem wProduct2 2
/-- Two units of the expired prescription product (stock 4). -/
def wRxItem : CartItem := mkItem wExpiredRx 2

/-- POS session about to check out a cart line that exceeds stock. -/
def wFailState : PosState :=
  { products := [wProduct2], sales := [], heldSales := [], cart := [wShortItem] }

/-- POS session with an active two-unit cart and an empty registry. -/
def wCartState : PosState :=
  { products := [wProduct1], sales := [], heldSales := [], cart := [wItem1] }

def wHeldSale : HeldSale :=
  { id := "h1", date := "d0", items := [wItem1], total := 234
    userId := "u1", userName := "Aisha", referenceNote := some "n" }

/-- POS session with one held sale and an empty active cart. -/
def wHeldState : PosState :=
  { products := [wProduct1], sales := [], heldSales := [wHeldSale], cart := [] }

/-- POS session with nothing held. -/
def wEmptyState : PosState :=
  { products := [wProduct1], sales := [], heldSales := [], cart := [] }

/-! Helper lemmas about keyed lookups in lists with distinct keys. Both the
cart (one line per product) and the catalog (unique, stable product ids)
keep their key column duplicate-free. -/

/-- In a list whose keys are duplicate-free, `find?` on the key of a member
returns exactly that member. -/
theorem find?_eq_some_of_nodup_key {α β : Type} [DecidableEq β] (key : α → β)
    {l : List α} {a : α} (hnd : (l.map key).Nodup) (ha : a ∈ l) :
    l.find? (fun x => key x = key a) = some a := by
  induction l with
  | nil => cases ha
  | cons b t ih =>
    have hnd' : ¬ key b ∈ t.map key ∧ (t.map key).Nodup := by
      simpa [List.nodup_cons] using hnd
    rcases List.mem_cons.mp ha with rfl | hat
    · simp [List.find?_cons]
    · have hne : key b ≠ key a := by
        intro h
        exact hnd'.1 (h ▸ List.mem_map_of_mem key hat)
      rw [List.find?_cons_of_neg _ (by simpa using hne)]
      exact ih hnd'.2 hat

/-- The `stockError` flag of the app-level checkout is raised exactly when
some cart line asks for more than the catalog stock of its product. -/
theorem checkoutStockError_iff {products : List Product} {cart : List CartItem}
    (hnd : (cart.map (fun c => c.toProduct.id)).Nodup) :
    checkoutStockError products cart = true ↔
      ∃ c ∈ cart, ∃ p ∈ products, p.id = c.toProduct.id ∧ p.stock < c.quantity := by
  unfold checkoutStockError
  rw [List.any_eq_true]
  constructor
  · rintro ⟨p, hp, hpred⟩
    cases hfind : cart.find? (fun c => c.id = p.id) with
    | none => rw [hfind] at hpred; simp at hpred
    | some c =>
      rw [hfind] at hpred
      have hcmem := List.mem_of_find?_eq_some hfind
      have hcid : c.toProduct.id = p.id := by simpa using List.find?_some hfind
      exact ⟨c, hcmem, p, hp, hcid.symm, by simpa using hpred⟩
  · rintro ⟨c, hc, p, hp, hid, hlt⟩
    refine ⟨p, hp, ?_⟩
    have hfind : cart.find? (fun x => x.id = p.id) = some c := by
      rw [hid]
      exact find?_eq_some_of_nodup_key (fun x => x.toProduct.id) hnd hc
    rw [hfind]
    simpa using hlt

/-- The per-product update step of the checkout commit keeps the product id. -/
theorem checkoutUpdateStep_id (cart : List CartItem) (p : Product) :
    (checkoutUpdateStep cart p).id = p.id := by
  unfold checkoutUpdateStep
  cases cart.find? (fun c => c.id = p.id) with
  | none => rfl
  | some c =>
    dsimp only
    split <;> rfl

/-- Looking a product id up in the committed catalog is looking it up in
the old catalog and applying the per-product update step. -/
theorem checkoutUpdatedProducts_find? (products : List Product)
    (cart : List CartItem) (pid : Nat) :
    (checkoutUpdatedProducts products cart).find? (fun p => p.id = pid) =
      (products.find? (fun p => p.id = pid)).map (checkoutUpdateStep cart) := by
  induction products with
  | nil => rfl
  | cons a t ih =>
    unfold checkoutUpdatedProducts at ih ⊢
    rw [List.map_cons]
    by_cases h : a.id = pid
    · rw [List.find?_cons_of_pos _ (by simpa [checkoutUpdateStep_id] using h),
        List.find?_cons_of_pos _ (by simpa using h)]
      rfl
    · rw [List.find?_cons_of_neg _ (by simpa [checkoutUpdateStep_id] using h),
        List.find?_cons_of_neg _ (by simpa using h)]
      exact ih

/-- After the commit, the catalog stock recorded for a cart line that fits
in stock is the old stock decremented by the line's quantity. -/
theorem catalogStock_commit_line {products : List Product} {cart : List CartItem}
    (hnd : (cart.map (fun c => c.toProduct.id)).Nodup)
    {c : CartItem} (hc : c ∈ cart)
    {p : Product} (hfind : products.find? (fun q => q.id = c.toProduct.id) = some p)
    (hle : c.quantity ≤ p.stock) :
    catalogStock (checkoutUpdatedProducts products cart) c.toProduct.id =
      some (p.stock - c.quantity) := by
  have hpid : p.id = c.toProduct.id := by simpa using List.find?_some hfind
  have hcfind : cart.find? (fun x => x.id = p.id) = some c := by
    rw [hpid]
    exact find?_eq_some_of_nodup_key (fun x => x.toProduct.id) hnd hc
  unfold catalogStock
  rw [checkoutUpdatedProducts_find?, hfind]
  simp only [Option.map_some']
  unfold checkoutUpdateStep
  rw [hcfind]
  dsimp only
  rw [if_neg (by omega)]

/-- The commit leaves the catalog stock of a product with no matching cart
line unchanged. -/
theorem catalogStock_commit_untouched {products : List Product}
    {cart : List CartItem} {pid : Nat}
    (hnone : ∀ c ∈ cart, c.toProduct.id ≠ pid) :
    catalogStock (checkoutUpdatedProducts products cart) pid =
      catalogStock products pid := by
  unfold catalogStock
  rw [checkoutUpdatedProducts_find?]
  cases hfind : products.find? (fun q => q.id = pid) with
  | none => rfl
  | some p =>
    have hpid : p.id = pid := by simpa using List.find?_some hfind
    have hcf : cart.find? (fun x => x.id = p.id) = none := by
      rw [List.find?_eq_none]
      intro c hc
      simpa [hpid] using hnone c hc
    simp [checkoutUpdateStep, hcf]

/-- C1: checkout is atomic — on a cart with one line per product against a
catalog with unique ids, if any cart line's quantity exceeds the current
catalog stock of its product the operation aborts with the
stock-insufficiency error and catalog and ledger are returned unchanged;
otherwise it reports no error, every line's product stock is decremented
by that line's quantity, every other product's stock is untouched, and
exactly one `Sale` built from the cart is prepended to the ledger. -/
theorem checkout_atomic
    (products : List Product) (sales : List Sale) (cart : List CartItem)
    (total : Rat) (method : PaymentMethod) (saleId date : String) (u : User)
    (hndCart : (cart.map (fun c => c.toProduct.id)).Nodup)
    (hndCat : (products.map (fun p => p.id)).Nodup) :
    ((∃ c ∈ cart, ∃ p ∈ products, p.id = c.toProduct.id ∧ p.stock < c.quantity) →
        handleCheckout products sales cart total method saleId date u =
          { error := some "Error: One or more items have insufficient stock."
            products := products
            sales := sales })
    ∧ ((∀ c ∈ cart, ∀ p ∈ products, p.id = c.toProduct.id → c.quantity ≤ p.stock) →
        (handleCheckout products sales cart total method saleId date u).error = none
        ∧ (∀ c ∈ cart, ∀ p ∈ products, p.id = c.toProduct.id →
            catalogStock
              (handleCheckout products sales cart total method saleId date u).products
              c.toProduct.id = some (p.stock - c.quantity))
        ∧ (∀ pid : Nat, (∀ c ∈ cart, c.toProduct.id ≠ pid) →
            catalogStock
              (handleCheckout products sales cart total method saleId date u).products
              pid = catalogStock products pid)
        ∧ (handleCheckout products sales cart total method saleId date u).sales =
            { id := saleId
              date := date
              totalAmount := total
              paymentMethod := method
              items := cart.map saleItemOfCartItem
              userId := u.id
              userName := u.name } :: sales) := by
  constructor
  · intro hex
    have herr : checkoutStockError products cart = true :=
      (checkoutStockError_iff hndCart).mpr hex
    simp [handleCheckout, herr]
  · intro hsuff
    have herr : checkoutStockError products cart = false := by
      rw [Bool.eq_false_iff]
      intro ht
      obtain ⟨c, hc, p, hp, hpid, hlt⟩ := (checkoutStockError_iff hndCart).mp ht
      have := hsuff c hc p hp hpid
      omega
    have hr : handleCheckout products sales cart total method saleId date u =
        { error := none
          products := checkoutUpdatedProducts products cart
          sales :=
            { id := saleId
              date := date
              totalAmount := total
              paymentMethod := method
              items := cart.map saleItemOfCartItem
              userId := u.id
              userName := u.name } :: sales } := by
      simp [handleCheckout, herr]
    refine ⟨by rw [hr], ?_, ?_, by rw [hr]⟩
    · intro c hc p hp hpid
      have hfind : products.find? (fun q => q.id = c.toProduct.id) = some p := by
        have h0 : products.find? (fun q => q.id = p.id) = some p := by
          simpa using find?_eq_some_of_nodup_key (fun q : Product => q.id) hndCat hp
        rw [hpid] at h0
        exact h0
      rw [hr]
      exact catalogStock_commit_line hndCart hc hfind (hsuff c hc p hp hpid)
    · intro pid hnone
      rw [hr]
      exact catalogStock_commit_untouched hnone

/-- Witness for C1: a one-line cart (quantity 2) against a catalog with
stock 5 commits with no error, leaving stock 3. -/
theorem checkout_atomic_witness :
    (handleCheckout [wProduct1] [] [wItem1] 234 PaymentMethod.cash
        "s1" "d1" demoUser).error = none
    ∧ catalogStock (handleCheckout [wProduct1] [] [wItem1] 234 PaymentMethod.cash
        "s1" "d1" demoUser).products 1 = some 3 := by
  have h := (checkout_atomic [wProduct1] [] [wItem1] 234 PaymentMethod.cash
    "s1" "d1" demoUser (by decide) (by decide)).2 (by decide)
  refine ⟨h.1, ?_⟩
  have h2 := h.2.1 wItem1 (by decide) wProduct1 (by decide) (by decide)
  simpa [wItem1, wProduct1, mkItem, mkProduct] using h2

/-- When every cart line fits in its product's stock, the `stockError`
flag stays down. -/
theorem checkoutStockError_eq_false {products : List Product} {cart : List CartItem}
    (hnd : (cart.map (fun c => c.toProduct.id)).Nodup)
    (hsuff : ∀ c ∈ cart, ∀ p ∈ products, p.id = c.toProduct.id → c.quantity ≤ p.stock) :
    checkoutStockError products cart = false := by
  rw [Bool.eq_false_iff]
  intro ht
  obtain ⟨c, hc, p, hp, hpid, hlt⟩ := (checkoutStockError_iff hnd).mp ht
  have := hsuff c hc p hp hpid
  omega

/-- Shape of the app-level checkout result when the stock re-check passes:
no error, the committed catalog, and one new `Sale` prepended. -/
theorem handleCheckout_ok {products : List Product} {cart : List CartItem}
    (sales : List Sale) (total : Rat) (method : PaymentMethod)
    (saleId date : String) (u : User)
    (herr : checkoutStockError products cart = false) :
    handleCheckout products sales cart total method saleId date u =
      { error := none
        products := checkoutUpdatedProducts products cart
        sales :=
          { id := saleId
            date := date
            totalAmount := total
            paymentMethod := method
            items := cart.map saleItemOfCartItem
            userId := u.id
            userName := u.name } :: sales } := by
  simp [handleCheckout, herr]

/-- C2 counterexample: with an empty catalog and a cart holding one line
for product id 1, checkout commits without error and appends a `Sale`
containing an item whose product id has no catalog entry before or after,
so no stock decrement corresponds to it. -/
theorem ledger_consistency_counterexample :
    (handleCheckout [] [] [wItem1] 234 PaymentMethod.cash "s1" "d1" demoUser).error = none
    ∧ (handleCheckout [] [] [wItem1] 234 PaymentMethod.cash "s1" "d1" demoUser).sales.length = 1
    ∧ ∃ s ∈ (handleCheckout [] [] [wItem1] 234 PaymentMethod.cash "s1" "d1" demoUser).sales,
        ∃ i ∈ s.items,
          catalogStock
            (handleCheckout [] [] [wItem1] 234 PaymentMethod.cash "s1" "d1" demoUser).products
            i.productId = none
          ∧ catalogStock [] i.productId = none := by
  decide

/-- C2 amended: when the stock re-check passes, checkout leaves catalog and
ledger mutually consistent for every item whose product id is in the
catalog — the new `Sale`'s items are exactly the flattened cart lines, each
such item's catalog stock is decremented by its quantity, and a product no
item refers to keeps its stock; an item whose product id is absent from
the catalog is nevertheless appended, with no catalog entry before or
after (no decrement for it). -/
theorem ledger_consistency_amended
    (products : List Product) (sales : List Sale) (cart : List CartItem)
    (total : Rat) (method : PaymentMethod) (saleId date : String) (u : User)
    (hndCart : (cart.map (fun c => c.toProduct.id)).Nodup)
    (hndCat : (products.map (fun p => p.id)).Nodup)
    (hsuff : ∀ c ∈ cart, ∀ p ∈ products, p.id = c.toProduct.id → c.quantity ≤ p.stock) :
    (handleCheckout products sales cart total method saleId date u).error = none
    ∧ ∃ s : Sale,
        (handleCheckout products sales cart total method saleId date u).sales = s :: sales
        ∧ s.items = cart.map saleItemOfCartItem
        ∧ (∀ i ∈ s.items, ∀ p ∈ products, p.id = i.productId →
            catalogStock
              (handleCheckout products sales cart total method saleId date u).products
              i.productId = some (p.stock - i.quantity))
        ∧ (∀ i ∈ s.items, catalogStock products i.productId = none →
            catalogStock
              (handleCheckout products sales cart total method saleId date u).products
              i.productId = none)
        ∧ (∀ p ∈ products, (∀ i ∈ s.items, i.productId ≠ p.id) →
            catalogStock
              (handleCheckout products sales cart total method saleId date u).products
              p.id = some p.stock) := by
  have herr := checkoutStockError_eq_false hndCart hsuff
  have hr := handleCheckout_ok sales total method saleId date u herr
  refine ⟨by rw [hr], ?_⟩
  refine ⟨_, by rw [hr], rfl, ?_, ?_, ?_⟩
  · intro i hi p hp hpid
    obtain ⟨c, hc, rfl⟩ := List.mem_map.mp hi
    have hfind : products.find? (fun q => q.id = c.toProduct.id) = some p := by
      have h0 : products.find? (fun q => q.id = p.id) = some p := by
        simpa using find?_eq_some_of_nodup_key (fun q : Product => q.id) hndCat hp
      have hpid' : p.id = c.toProduct.id := hpid
      rw [hpid'] at h0
      exact h0
    rw [hr]
    exact catalogStock_commit_line hndCart hc hfind (hsuff c hc p hp hpid)
  · intro i hi hnonecat
    obtain ⟨c, hc, rfl⟩ := List.mem_map.mp hi
    rw [hr]
    unfold catalogStock at hnonecat ⊢
    rw [checkoutUpdatedProducts_find?]
    cases hfind : products.find? (fun q => q.id = (saleItemOfCartItem c).productId) with
    | none => rfl
    | some p => rw [hfind] at hnonecat; simp at hnonecat
  · intro p hp hnoitem
    have hnone : ∀ c ∈ cart, c.toProduct.id ≠ p.id := by
      intro c hc
      exact hnoitem (saleItemOfCartItem c) (List.mem_map_of_mem _ hc)
    rw [hr]
    rw [catalogStock_commit_untouched hnone]
    unfold catalogStock
    rw [show products.find? (fun q => q.id = p.id) = some p by
      simpa using find?_eq_some_of_nodup_key (fun q : Product => q.id) hndCat hp]
    rfl

/-- Witness for the amended C2: catalog `[wProduct1, wProduct2]`, cart
with one line of product 2 — the sale's single item matches the cart line,
product 2 is decremented to 0, product 1 keeps stock 5. -/
theorem ledger_consistency_amended_witness :
    (handleCheckout [wProduct1, wProduct2] [] [wItem2] 234 PaymentMethod.cash
        "s1" "d1" demoUser).error = none
    ∧ catalogStock (handleCheckout [wProduct1, wProduct2] [] [wItem2] 234
        PaymentMethod.cash "s1" "d1" demoUser).products 2 = some 0
    ∧ catalogStock (handleCheckout [wProduct1, wProduct2] [] [wItem2] 234
        PaymentMethod.cash "s1" "d1" demoUser).products 1 = some 5 := by
  obtain ⟨herr, s, hs, hitems, hdec, -, huntouched⟩ :=
    ledger_consistency_amended [wProduct1, wProduct2] [] [wItem2] 234
      PaymentMethod.cash "s1" "d1" demoUser (by decide) (by decide) (by decide)
  refine ⟨herr, ?_, ?_⟩
  · have := hdec (saleItemOfCartItem wItem2)
      (by rw [hitems]; exact List.mem_map_of_mem _ (by decide)) wProduct2
      (by decide) (by decide)
    simpa [wItem2, wProduct2, mkItem, mkProduct, saleItemOfCartItem] using this
  · have := huntouched wProduct1 (by decide) (by rw [hitems]; decide)
    simpa [wProduct1, mkProduct] using this

/-- C3 (code bug): on a stock-insufficient cart the app-level commit
aborts — the error is raised, no `Sale` is appended and the catalog is
unchanged — yet the POS page clears the active cart (and resets the payment
method, showing the success alert) unconditionally after invoking the
handler, so the cart does not survive the failed commit. -/
theorem pos_checkout_clears_cart_on_failure :
    (handleCheckout wFailState.products wFailState.sales wFailState.cart
        (cartTotal wFailState.cart (taxRate demoSettings)) PaymentMethod.cash
        "s1" "d1" demoUser).error =
      some "Error: One or more items have insufficient stock."
    ∧ (posHandleCheckout wFailState demoSettings PaymentMethod.cash
        "s1" "d1" demoUser).sales = []
    ∧ (posHandleCheckout wFailState demoSettings PaymentMethod.cash
        "s1" "d1" demoUser).products = wFailState.products
    ∧ (posHandleCheckout wFailState demoSettings PaymentMethod.cash
        "s1" "d1" demoUser).cart = [] := by
  decide

/-- C4: cart add — an expired product (hard block) or an add that would
push the line's quantity past the product's current stock leaves the cart
unchanged; otherwise (with the prescription prompt confirmed when
required) the existing line's quantity is incremented by 1, or a new line
with quantity 1 is appended. -/
theorem add_to_cart_spec (cart : List CartItem) (product : Product)
    (now : Int) (rxConfirmed : Bool) :
    (product.expiryDate < now → addToCart cart product now rxConfirmed = cart)
    ∧ (product.stock < cartQty cart product.id + 1 →
        addToCart cart product now rxConfirmed = cart)
    ∧ (¬ product.expiryDate < now →
        (product.requiresPrescription = true → rxConfirmed = true) →
        cartQty cart product.id + 1 ≤ product.stock →
        addToCart cart product now rxConfirmed =
          if (cart.find? (fun item => item.id = product.id)).isSome then
            cart.map (fun item =>
              if item.id = product.id then { item with quantity := item.quantity + 1 }
              else item)
          else cart ++ [{ toProduct := product, quantity := 1 }]) := by
  refine ⟨fun hexp => by simp [addToCart, hexp], ?_, ?_⟩
  · intro hstock
    unfold addToCart
    split
    · rfl
    split
    · rfl
    cases hf : cart.find? (fun item => item.id = product.id) with
    | some i =>
      have hq : cartQty cart product.id = i.quantity := by
        unfold cartQty
        rw [hf]
      simp only [hf]
      rw [if_pos (by omega)]
    | none =>
      have hq : cartQty cart product.id = 0 := by
        unfold cartQty
        rw [hf]
      simp only [hf]
      rw [if_pos (by omega)]
  · intro hexp hrx hstock
    unfold addToCart
    rw [if_neg hexp]
    have hcond : (product.requiresPrescription && !rxConfirmed) = false := by
      cases hp : product.requiresPrescription with
      | false => simp
      | true => simp [hrx hp]
    rw [if_neg (by simp [hcond])]
    cases hf : cart.find? (fun item => item.id = product.id) with
    | some i =>
      have hq : cartQty cart product.id = i.quantity := by
        unfold cartQty
        rw [hf]
      simp only [hf]
      rw [if_neg (by omega)]
      simp
    | none =>
      have hq : cartQty cart product.id = 0 := by
        unfold cartQty
        rw [hf]
      simp only [hf]
      rw [if_neg (by omega)]
      simp

/-- Witness for C4: for a product with stock 1, the first add yields a
line with quantity 1, and the second add is rejected, leaving quantity 1. -/
theorem add_to_cart_witness :
    addToCart [] wProduct2 0 true = [mkItem wProduct2 1]
    ∧ addToCart [mkItem wProduct2 1] wProduct2 0 true = [mkItem wProduct2 1] := by
  constructor
  · have h := (add_to_cart_spec [] wProduct2 0 true).2.2 (by decide)
      (fun _ => rfl) (by decide)
    simpa [mkItem] using h
  · exact (add_to_cart_spec [mkItem wProduct2 1] wProduct2 0 true).2.1 (by decide)

/-- POS `subtotal` is the sum of `price * quantity` over the cart lines. -/
theorem subtotal_eq_sum (cart : List CartItem) :
    subtotal cart = (cart.map (fun i => i.price * (i.quantity : Rat))).sum := by
  unfold subtotal
  rw [List.sum_eq_foldl, List.foldl_map]

/-- C5: cart totals — `subtotal` is the sum of `price * quantity` over all
lines; the tax rate is read from the settings key `tax_rate`, defaulting
to 0 when unset; `taxAmount` is `subtotal * taxRate / 100` and the total
is `subtotal + taxAmount`. -/
theorem cart_totals_spec (cart : List CartItem) (settings : List AppSetting) :
    subtotal cart = (cart.map (fun i => i.price * (i.quantity : Rat))).sum
    ∧ (settings.find? (fun s => s.key = "tax_rate") = none → taxRate settings = 0)
    ∧ (∀ s0, settings.find? (fun s => s.key = "tax_rate") = some s0 →
        taxRate settings = s0.value)
    ∧ taxAmount cart (taxRate settings) = subtotal cart * taxRate settings / 100
    ∧ cartTotal cart (taxRate settings) =
        subtotal cart + taxAmount cart (taxRate settings) := by
  refine ⟨subtotal_eq_sum cart, ?_, ?_, rfl, rfl⟩
  · intro h
    simp [taxRate, settingValue, h]
  · intro s0 h
    simp [taxRate, settingValue, h]

/-- Witness for C5: one line of price 100 and quantity 2 at tax rate 17
gives subtotal 200, tax 34, total 234. -/
theorem cart_totals_witness :
    taxRate demoSettings = 17
    ∧ subtotal [wItem1] = 200
    ∧ taxAmount [wItem1] (taxRate demoSettings) = 34
    ∧ cartTotal [wItem1] (taxRate demoSettings) = 234 := by
  have h := cart_totals_spec [wItem1] demoSettings
  have htax : taxRate demoSettings = 17 := by
    have := h.2.2.1
      { id := 1, key := "tax_rate", value := 17
        description := "Sales tax percent", group := "billing" } (by decide)
    simpa using this
  have hsub : subtotal [wItem1] = 200 := by
    rw [h.1]
    norm_num [wItem1, wProduct1, mkItem, mkProduct]
  have htaxamt : taxAmount [wItem1] (taxRate demoSettings) = 34 := by
    rw [h.2.2.2.1, hsub, htax]
    norm_num
  have htotal : cartTotal [wItem1] (taxRate demoSettings) = 234 := by
    rw [h.2.2.2.2, hsub, htaxamt]
    norm_num
  exact ⟨htax, hsub, htaxamt, htotal⟩

/-- C6: holding a non-empty cart stores a snapshot of its lines under the
generated id with the timestamp, computed total and default note, and
clears the active cart; resuming that id then restores exactly the same
line items, quantities and computed total to the active cart and removes
the entry from the registry. -/
theorem hold_resume_roundtrip (st : PosState) (settings : List AppSetting)
    (newId date defaultNote : String) (u : User)
    (hne : st.cart ≠ [])
    (hfresh : ∀ h ∈ st.heldSales, h.id ≠ newId) :
    (posHandleHold st settings newId date defaultNote u).cart = []
    ∧ (posHandleHold st settings newId date defaultNote u).heldSales =
        { id := newId
          date := date
          items := st.cart
          total := cartTotal st.cart (taxRate settings)
          userId := u.id
          userName := u.name
          referenceNote := some defaultNote } :: st.heldSales
    ∧ posHandleResume (posHandleHold st settings newId date defaultNote u) newId =
        Except.ok st := by
  have hnemp : st.cart.isEmpty = false := by
    cases hc : st.cart with
    | nil => exact absurd hc hne
    | cons a t => rfl
  have hh : posHandleHold st settings newId date defaultNote u =
      { st with
        heldSales :=
          { id := newId
            date := date
            items := st.cart
            total := cartTotal st.cart (taxRate settings)
            userId := u.id
            userName := u.name
            referenceNote := some defaultNote } :: st.heldSales
        cart := [] } := by
    simp [posHandleHold, handleHoldSale, hnemp]
  have h1 : st.heldSales.filter (fun g => g.id ≠ newId) = st.heldSales :=
    List.filter_eq_self.mpr (fun h hmem => by simpa using hfresh h hmem)
  refine ⟨by rw [hh], by rw [hh], ?_⟩
  rw [hh]
  unfold posHandleResume
  rw [List.find?_cons_of_pos _ (by simp)]
  dsimp only
  rw [List.filter_cons, if_neg (by simp), h1]

/-- Witness for C6: holding the two-unit cart and resuming the generated
id restores the cart and empties the registry. -/
theorem hold_resume_roundtrip_witness :
    (posHandleHold wCartState demoSettings "h2" "d2" "Held at noon" demoUser).cart = []
    ∧ posHandleResume
        (posHandleHold wCartState demoSettings "h2" "d2" "Held at noon" demoUser)
        "h2" = Except.ok wCartState := by
  have h := hold_resume_roundtrip wCartState demoSettings "h2" "d2" "Held at noon"
    demoUser (by decide) (by decide)
  exact ⟨h.1, h.2.2⟩

/-- C7: resuming an id with no entry in the registry fails with NotFound
(the registry is a no-op), and after a successful resume of an id, a
second resume of the same id fails. -/
theorem resume_at_most_once (st : PosState) (hid : String) :
    ((∀ h ∈ st.heldSales, h.id ≠ hid) →
        posHandleResume st hid = Except.error "NotFound")
    ∧ (∀ st2 : PosState, posHandleResume st hid = Except.ok st2 →
        posHandleResume st2 hid = Except.error "NotFound") := by
  constructor
  · intro habs
    unfold posHandleResume
    rw [List.find?_eq_none.mpr (fun h hmem => by simpa using habs h hmem)]
  · intro st2 hok
    unfold posHandleResume at hok
    cases hfind : st.heldSales.find? (fun h => h.id = hid) with
    | none =>
      rw [hfind] at hok
      cases hok
    | some h =>
      rw [hfind] at hok
      have hst2 := Except.ok.inj hok
      unfold posHandleResume
      rw [← hst2]
      dsimp only
      rw [List.find?_eq_none.mpr ?_]
      intro g hg
      have hmem := List.of_mem_filter hg
      simpa using hmem

/-- Witness for C7: an unknown id fails; after the held sale `h1` is
resumed (yielding the active-cart state), resuming `h1` again fails. -/
theorem resume_at_most_once_witness :
    posHandleResume wEmptyState "h9" = Except.error "NotFound"
    ∧ posHandleResume wHeldState "h1" = Except.ok wCartState
    ∧ posHandleResume wCartState "h1" = Except.error "NotFound" := by
  refine ⟨(resume_at_most_once wEmptyState "h9").1 (by decide), rfl, ?_⟩
  exact (resume_at_most_once wHeldState "h1").2 wCartState rfl

/-- C8: adjusting a line by ±1 — when the product is still in the catalog
and the new quantity would exceed its current stock the whole cart is
unchanged (a no-op); otherwise the line's quantity becomes the clamped
`max 0 (quantity + delta)`: a line reaching 0 is removed from the cart,
and a positive new quantity replaces the old one, other lines untouched. -/
theorem update_quantity_spec (products : List Product) (cart : List CartItem)
    (pid : Nat) (delta : Int) (p : Product) (item : CartItem)
    (hdelta : delta = 1 ∨ delta = -1)
    (hnd : (cart.map (fun c => c.toProduct.id)).Nodup)
    (hpos : ∀ l ∈ cart, 0 < l.quantity)
    (hp : products.find? (fun q => q.id = pid) = some p)
    (hitem : item ∈ cart) (hid : item.toProduct.id = pid) :
    ((p.stock : Int) < (item.quantity : Int) + delta →
        updateQuantity products cart pid delta = cart)
    ∧ ((item.quantity : Int) + delta ≤ (p.stock : Int) →
        (item.quantity : Int) + delta ≤ 0 →
        updateQuantity products cart pid delta =
          cart.filter (fun l => l.id ≠ pid))
    ∧ ((item.quantity : Int) + delta ≤ (p.stock : Int) →
        0 < (item.quantity : Int) + delta →
        updateQuantity products cart pid delta =
          cart.map (fun l =>
            if l.id = pid then
              { l with quantity := ((l.quantity : Int) + delta).toNat }
            else l)) := by
  have huniq : ∀ l ∈ cart, l.toProduct.id = pid → l = item := by
    intro l hl hlid
    exact List.inj_on_of_nodup_map hnd hl hitem (by rw [hlid, hid])
  refine ⟨?_, ?_, ?_⟩
  · intro hover
    unfold updateQuantity
    have hmapid : cart.map (updateQuantityStep products pid delta) = cart := by
      have := List.map_congr_left (l := cart)
        (f := updateQuantityStep products pid delta) (g := id) ?_
      · simpa using this
      intro l hl
      unfold updateQuantityStep
      by_cases hlid : l.toProduct.id = pid
      · have hle : l = item := huniq l hl hlid
        rw [if_pos (by simpa using hlid), hp]
        dsimp only
        rw [if_pos (by rw [hle]; omega)]
        rfl
      · rw [if_neg (by simpa using hlid)]
        rfl
    rw [hmapid]
    exact List.filter_eq_self.mpr (fun l hl => by simpa using hpos l hl)
  · intro hfit hzero
    unfold updateQuantity
    have key : ∀ cs : List CartItem,
        (∀ l ∈ cs, l.toProduct.id = pid → l = item) →
        (∀ l ∈ cs, 0 < l.quantity) →
        (cs.map (updateQuantityStep products pid delta)).filter
            (fun l => 0 < l.quantity) =
          cs.filter (fun l => l.id ≠ pid) := by
      intro cs
      induction cs with
      | nil => intro _ _; rfl
      | cons a t ih =>
        intro hu hq
        rw [List.map_cons, List.filter_cons, List.filter_cons]
        by_cases ha : a.toProduct.id = pid
        · have haitem : a = item := hu a (List.mem_cons_self a t) ha
          have hstep : updateQuantityStep products pid delta a =
              { a with quantity := ((a.quantity : Int) + delta).toNat } := by
            unfold updateQuantityStep
            rw [if_pos (by simpa using ha), hp]
            dsimp only
            rw [if_neg (by rw [haitem]; omega)]
          rw [hstep]
          have hq0 : (((a.quantity : Int) + delta).toNat : Nat) = 0 := by
            rw [haitem]
            omega
          rw [if_neg (by simp [hq0]), if_neg (by simp [ha])]
          exact ih (fun l hl => hu l (List.mem_cons_of_mem a hl))
            (fun l hl => hq l (List.mem_cons_of_mem a hl))
        · have hstep : updateQuantityStep products pid delta a = a := by
            unfold updateQuantityStep
            rw [if_neg (by simpa using ha)]
          rw [hstep]
          rw [if_pos (by simpa using hq a (List.mem_cons_self a t)),
            if_pos (by simpa using ha)]
          rw [ih (fun l hl => hu l (List.mem_cons_of_mem a hl))
            (fun l hl => hq l (List.mem_cons_of_mem a hl))]
    exact key cart huniq hpos
  · intro hfit hposnew
    unfold updateQuantity
    have hmap : cart.map (updateQuantityStep products pid delta) =
        cart.map (fun l =>
          if l.id = pid then
            { l with quantity := ((l.quantity : Int) + delta).toNat }
          else l) := by
      apply List.map_congr_left
      intro l hl
      unfold updateQuantityStep
      by_cases hlid : l.toProduct.id = pid
      · rw [if_pos (by simpa using hlid), hp]
        dsimp only
        rw [if_neg (by rw [huniq l hl hlid]; omega)]
        rw [if_pos (by simpa using hlid)]
      · rw [if_neg (by simpa using hlid), if_neg (by simpa using hlid)]
    rw [hmap]
    apply List.filter_eq_self.mpr
    intro l' hl'
    obtain ⟨l, hl, rfl⟩ := List.mem_map.mp hl'
    by_cases hlid : l.toProduct.id = pid
    · have hle : l = item := huniq l hl hlid
      rw [if_pos (by simpa using hlid)]
      simp only [decide_eq_true_eq]
      rw [hle]
      omega
    · rw [if_neg (by simpa using hlid)]
      simpa using hpos l hl

/-- Witness for C8: decrementing a quantity-1 line removes it; bumping a
line already at the stock limit is a no-op. -/
theorem update_quantity_witness :
    updateQuantity [wProduct1] [mkItem wProduct1 1] 1 (-1) = []
    ∧ updateQuantity [wProduct2] [mkItem wProduct2 1] 2 1 = [mkItem wProduct2 1] := by
  constructor
  · have h := (update_quantity_spec [wProduct1] [mkItem wProduct1 1] 1 (-1)
      wProduct1 (mkItem wProduct1 1) (Or.inr rfl) (by decide) (by decide)
      (by rfl) (by decide) (by decide)).2.1 (by decide) (by decide)
    rw [h]
    decide
  · exact (update_quantity_spec [wProduct2] [mkItem wProduct2 1] 2 1
      wProduct2 (mkItem wProduct2 1) (Or.inl rfl) (by decide) (by decide)
      (by rfl) (by decide) (by decide)).1 (by decide)

/-- C9: low-stock classification — with a nonzero reorder level the
product-specific threshold is used (`stock <= reorderLevel`); a reorder
level of 0 is falsy, treated as unset, and the product is compared against
the global default threshold instead. -/
theorem low_stock_spec (p : Product) (dflt : Rat) :
    (p.reorderLevel ≠ 0 →
        (isLowStock dflt p = true ↔ (p.stock : Rat) ≤ (p.reorderLevel : Rat)))
    ∧ (p.reorderLevel = 0 →
        (isLowStock dflt p = true ↔ (p.stock : Rat) ≤ dflt)) := by
  constructor
  · intro h
    simp [isLowStock, h]
  · intro h
    simp [isLowStock, h]

/-- Witness for C9: reorder level 3 with stock 3 is low-stock, with stock
4 it is not, and reorder level 0 with stock 5 is low-stock against the
default threshold 5. -/
theorem low_stock_witness :
    isLowStock 5 (mkProduct 10 1 3 0 3 false) = true
    ∧ isLowStock 5 (mkProduct 10 1 4 0 3 false) = false
    ∧ isLowStock 5 (mkProduct 10 1 5 0 0 false) = true := by
  refine ⟨?_, ?_, ?_⟩
  · exact ((low_stock_spec (mkProduct 10 1 3 0 3 false) 5).1 (by decide)).mpr
      (by norm_num [mkProduct])
  · have h := (low_stock_spec (mkProduct 10 1 4 0 3 false) 5).1 (by decide)
    rw [Bool.eq_false_iff]
    intro hb
    have h4 := h.mp hb
    norm_num [mkProduct] at h4
  · exact ((low_stock_spec (mkProduct 10 1 5 0 0 false) 5).2 rfl).mpr
      (by norm_num [mkProduct])

/-- C10: checkout validates only stock sufficiency — whenever every line
fits in its product's stock, the commit goes through: no error, the gated
line (expired or prescription-required, e.g. restored by resuming a held
sale) is flattened into the appended `Sale`, and its product's stock is
decremented, with no expiry, prescription or narcotic re-check blocking
it. -/
theorem checkout_ignores_gating
    (products : List Product) (sales : List Sale) (cart : List CartItem)
    (total : Rat) (method : PaymentMethod) (saleId date : String) (u : User)
    (now : Int) (c0 : CartItem)
    (hndCart : (cart.map (fun c => c.toProduct.id)).Nodup)
    (hndCat : (products.map (fun p => p.id)).Nodup)
    (hsuff : ∀ c ∈ cart, ∀ p ∈ products, p.id = c.toProduct.id → c.quantity ≤ p.stock)
    (hc0 : c0 ∈ cart)
    (hgated : c0.toProduct.expiryDate < now ∨ c0.toProduct.requiresPrescription = true) :
    (handleCheckout products sales cart total method saleId date u).error = none
    ∧ (∃ s : Sale,
        (handleCheckout products sales cart total method saleId date u).sales = s :: sales
        ∧ saleItemOfCartItem c0 ∈ s.items)
    ∧ (∀ p ∈ products, p.id = c0.toProduct.id →
        catalogStock
          (handleCheckout products sales cart total method saleId date u).products
          c0.toProduct.id = some (p.stock - c0.quantity)) := by
  have herr := checkoutStockError_eq_false hndCart hsuff
  have hr := handleCheckout_ok sales total method saleId date u herr
  refine ⟨by rw [hr], ⟨_, by rw [hr], List.mem_map_of_mem _ hc0⟩, ?_⟩
  intro p hp hpid
  have hfind : products.find? (fun q => q.id = c0.toProduct.id) = some p := by
    have h0 : products.find? (fun q => q.id = p.id) = some p := by
      simpa using find?_eq_some_of_nodup_key (fun q : Product => q.id) hndCat hp
    rw [hpid] at h0
    exact h0
  rw [hr]
  exact catalogStock_commit_line hndCart hc0 hfind (hsuff c0 hc0 p hp hpid)

/-- Witness for C10: a cart holding two units of an expired,
prescription-required product checks out with no error and decrements its
stock from 4 to 2. -/
theorem checkout_ignores_gating_witness :
    (handleCheckout [wExpiredRx] [] [wRxItem] 48 PaymentMethod.cash
        "s1" "d1" demoUser).error = none
    ∧ catalogStock (handleCheckout [wExpiredRx] [] [wRxItem] 48 PaymentMethod.cash
        "s1" "d1" demoUser).products 3 = some 2 := by
  have h := checkout_ignores_gating [wExpiredRx] [] [wRxItem] 48 PaymentMethod.cash
    "s1" "d1" demoUser 0 wRxItem (by decide) (by decide) (by decide) (by decide)
    (Or.inl (by decide))
  refine ⟨h.1, ?_⟩
  have h2 := h.2.2 wExpiredRx (by decide) (by decide)
  simpa [wRxItem, wExpiredRx, mkItem, mkProduct] using h2

end Epos
